import Mathlib

/-
Verification of the account-domain core (chart-of-accounts model, classification
rules, store and command facade) of the erp repository. The Rust source under
src/src-tauri/src is embedded shallowly: enums become inductives, structs become
structures, `rust_decimal::Decimal` is modelled as the exact rationals, `Uuid`
and timestamps are abstract values threaded explicitly (`Uuid::new_v4()` and
`Utc::now()` become parameters), fallible operations return `Except`, and the
Postgres-backed store becomes an explicit list-of-rows state.
-/

namespace Erp

/-- Model of Rust str::to_uppercase; it agrees with per-character ASCII
uppercasing on every string relevant to the classification tokens. -/
def rustToUppercase (s : String) : String := ⟨s.data.map Char.toUpper⟩

/-- models/account.rs: enum AccountType. -/
inductive AccountType where
  | Asset
  | Liability
  | Equity
  | Revenue
  | Expense
deriving DecidableEq, Repr, Fintype

/-- models/account.rs: impl fmt::Display for AccountType. -/
def AccountType.display : AccountType → String
  | .Asset => "ASSET"
  | .Liability => "LIABILITY"
  | .Equity => "EQUITY"
  | .Revenue => "REVENUE"
  | .Expense => "EXPENSE"

/-- models/account.rs lines 42-51: AccountType::from_str. -/
def AccountType.fromStr (s : String) : Option AccountType :=
  match rustToUppercase s with
  | "ASSET" => some .Asset
  | "LIABILITY" => some .Liability
  | "EQUITY" => some .Equity
  | "REVENUE" => some .Revenue
  | "EXPENSE" => some .Expense
  | _ => none

/-- models/account.rs lines 54-56: AccountType::is_debit_normal. -/
def AccountType.is_debit_normal : AccountType → Bool
  | .Asset | .Expense => true
  | _ => false

/-- models/account.rs lines 59-61: AccountType::is_credit_normal. -/
def AccountType.is_credit_normal : AccountType → Bool
  | .Liability | .Equity | .Revenue => true
  | _ => false

/-- models/account.rs: enum AccountCategory. -/
inductive AccountCategory where
  | CurrentAsset
  | FixedAsset
  | OtherAsset
  | CurrentLiability
  | LongTermLiability
  | OtherLiability
  | OwnerEquity
  | RetainedEarnings
  | OperatingRevenue
  | NonOperatingRevenue
  | OperatingExpense
  | NonOperatingExpense
deriving DecidableEq, Repr, Fintype

/-- models/account.rs: impl fmt::Display for AccountCategory. -/
def AccountCategory.display : AccountCategory → String
  | .CurrentAsset => "CURRENT_ASSET"
  | .FixedAsset => "FIXED_ASSET"
  | .OtherAsset => "OTHER_ASSET"
  | .CurrentLiability => "CURRENT_LIABILITY"
  | .LongTermLiability => "LONG_TERM_LIABILITY"
  | .OtherLiability => "OTHER_LIABILITY"
  | .OwnerEquity => "OWNER_EQUITY"
  | .RetainedEarnings => "RETAINED_EARNINGS"
  | .OperatingRevenue => "OPERATING_REVENUE"
  | .NonOperatingRevenue => "NON_OPERATING_REVENUE"
  | .OperatingExpense => "OPERATING_EXPENSE"
  | .NonOperatingExpense => "NON_OPERATING_EXPENSE"

/-- models/account.rs lines 118-134: AccountCategory::from_str. -/
def AccountCategory.fromStr (s : String) : Option AccountCategory :=
  match rustToUppercase s with
  | "CURRENT_ASSET" => some .CurrentAsset
  | "FIXED_ASSET" => some .FixedAsset
  | "OTHER_ASSET" => some .OtherAsset
  | "CURRENT_LIABILITY" => some .CurrentLiability
  | "LONG_TERM_LIABILITY" => some .LongTermLiability
  | "OTHER_LIABILITY" => some .OtherLiability
  | "OWNER_EQUITY" => some .OwnerEquity
  | "RETAINED_EARNINGS" => some .RetainedEarnings
  | "OPERATING_REVENUE" => some .OperatingRevenue
  | "NON_OPERATING_REVENUE" => some .NonOperatingRevenue
  | "OPERATING_EXPENSE" => some .OperatingExpense
  | "NON_OPERATING_EXPENSE" => some .NonOperatingExpense
  | _ => none

/-- models/account.rs lines 137-149: AccountCategory::for_account_type. -/
def AccountCategory.for_account_type : AccountType → List AccountCategory
  | .Asset => [.CurrentAsset, .FixedAsset, .OtherAsset]
  | .Liability => [.CurrentLiability, .LongTermLiability, .OtherLiability]
  | .Equity => [.OwnerEquity, .RetainedEarnings]
  | .Revenue => [.OperatingRevenue, .NonOperatingRevenue]
  | .Expense => [.OperatingExpense, .NonOperatingExpense]

/-- Model of uuid::Uuid: an abstract 128-bit-style identity carried as a Nat. -/
structure Uuid where
  val : Nat
deriving DecidableEq, Repr

/-- Model of chrono DateTime of Utc: an abstract instant. -/
abbrev Timestamp := Nat

/-- Model of rust_decimal::Decimal: exact (rational) decimal arithmetic, which
matches Decimal addition exactly on all in-range values. -/
abbrev Decimal := ℚ

/-- models/account.rs: struct Account (the domain entity). -/
structure Account where
  id : Uuid
  code : String
  name : String
  description : Option String
  account_type : AccountType
  category : AccountCategory
  subcategory : Option String
  is_active : Bool
  parent_id : Option Uuid
  balance : Decimal
  created_at : Timestamp
  updated_at : Timestamp
deriving DecidableEq, Repr

/-- models/account.rs: struct AccountDto (the persisted row; classification is
stored as its canonical uppercase string token). -/
structure AccountDto where
  id : Uuid
  code : String
  name : String
  description : Option String
  account_type : String
  category : String
  subcategory : Option String
  is_active : Bool
  parent_id : Option Uuid
  balance : Decimal
  created_at : Timestamp
  updated_at : Timestamp
deriving DecidableEq, Repr

/-- models/account.rs: struct NewAccount. -/
structure NewAccount where
  code : String
  name : String
  description : Option String
  account_type : AccountType
  category : AccountCategory
  subcategory : Option String
  parent_id : Option Uuid
deriving DecidableEq, Repr

/-- models/account.rs lines 200-217: Account::new. The source calls
Uuid::new_v4() and Utc::now(); those effects are threaded as the freshId and
now parameters. -/
def Account.new (new_account : NewAccount) (freshId : Uuid) (now : Timestamp) :
    Account :=
  { id := freshId
    code := new_account.code
    name := new_account.name
    description := new_account.description
    account_type := new_account.account_type
    category := new_account.category
    subcategory := new_account.subcategory
    is_active := true
    parent_id := new_account.parent_id
    balance := 0
    created_at := now
    updated_at := now }

/-- models/account.rs lines 230-233: Account::update_balance; Utc::now() is the
now parameter. -/
def Account.update_balance (a : Account) (amount : Decimal) (now : Timestamp) :
    Account :=
  { a with balance := a.balance + amount, updated_at := now }

/-- models/account.rs lines 236-254: impl From of AccountDto for Account.
Unrecognized tokens fall back via unwrap_or to Asset / CurrentAsset. -/
def accountOfDto (dto : AccountDto) : Account :=
  { id := dto.id
    code := dto.code
    name := dto.name
    description := dto.description
    account_type := (AccountType.fromStr dto.account_type).getD .Asset
    category := (AccountCategory.fromStr dto.category).getD .CurrentAsset
    subcategory := dto.subcategory
    is_active := dto.is_active
    parent_id := dto.parent_id
    balance := dto.balance
    created_at := dto.created_at
    updated_at := dto.updated_at }

/-- models/account.rs lines 256-273: impl From of Account for AccountDto. -/
def dtoOfAccount (account : Account) : AccountDto :=
  { id := account.id
    code := account.code
    name := account.name
    description := account.description
    account_type := account.account_type.display
    category := account.category.display
    subcategory := account.subcategory
    is_active := account.is_active
    parent_id := account.parent_id
    balance := account.balance
    created_at := account.created_at
    updated_at := account.updated_at }

/-- Model of sqlx::Error restricted to the variants the repository inspects
(error.rs lines 61-68); every other variant is collapsed into Other. -/
inductive SqlxError where
  | RowNotFound
  | Database (msg : String)
  | ColumnNotFound (col : String)
  | PoolClosed
  | PoolTimedOut
  | Other (msg : String)
deriving DecidableEq, Repr

/-- Model of the Display rendering of sqlx::Error, used by error.rs when
debug_assertions is set (err.to_string()). -/
def SqlxError.render : SqlxError → String
  | .RowNotFound =>
      "no rows returned by a query that expected to return at least one row"
  | .Database msg => "error returned from database: " ++ msg
  | .ColumnNotFound col => "no column found for name: " ++ col
  | .PoolClosed => "attempted to acquire a connection on a closed pool"
  | .PoolTimedOut => "pool timed out while waiting for an open connection"
  | .Other msg => msg

/-- error.rs lines 5-39: enum Error (internal error taxonomy); variant payloads
that the claims never inspect are carried as their rendered strings. -/
inductive Error where
  | Database (e : SqlxError)
  | Io (msg : String)
  | Config (msg : String)
  | Auth (msg : String)
  | Validation (msg : String)
  | NotFound (msg : String)
  | Conflict (msg : String)
  | ExternalService (msg : String)
  | Serialization (msg : String)
  | Migration (msg : String)
  | Unknown (msg : String)
deriving DecidableEq, Repr

/-- error.rs lines 50-56: struct ErrorResponse. -/
structure ErrorResponse where
  code : String
  message : String
  details : Option String
deriving DecidableEq, Repr

/-- error.rs lines 59-80: impl From of sqlx::Error for ErrorResponse. The
compile-time cfg(debug_assertions) flag is the dbg parameter. -/
def ErrorResponse.ofSqlx (dbg : Bool) (err : SqlxError) : ErrorResponse :=
  { code := "DATABASE_ERROR"
    message :=
      match err with
      | .RowNotFound => "Record not found"
      | .Database _ => "Database error"
      | .ColumnNotFound col => "Column not found: " ++ col
      | .PoolClosed => "Database connection pool closed"
      | .PoolTimedOut => "Database connection timeout"
      | .Other _ => "Database error occurred"
    details := if dbg then some err.render else none }

/-- error.rs lines 82-150: impl From of Error for ErrorResponse. -/
def ErrorResponse.ofError (dbg : Bool) : Error → ErrorResponse
  | .Database e => ErrorResponse.ofSqlx dbg e
  | .Io msg =>
      { code := "IO_ERROR", message := "A file system error occurred"
        details := if dbg then some msg else none }
  | .Config msg =>
      { code := "CONFIG_ERROR", message := "A configuration error occurred"
        details := some msg }
  | .Auth msg =>
      { code := "AUTH_ERROR", message := "An authentication error occurred"
        details := some msg }
  | .Validation msg =>
      { code := "VALIDATION_ERROR", message := "A validation error occurred"
        details := some msg }
  | .NotFound msg =>
      { code := "NOT_FOUND", message := "Resource not found"
        details := some msg }
  | .Conflict msg =>
      { code := "CONFLICT_ERROR", message := "A conflict occurred"
        details := some msg }
  | .ExternalService msg =>
      { code := "EXTERNAL_SERVICE_ERROR"
        message := "An external service error occurred", details := some msg }
  | .Serialization msg =>
      { code := "SERIALIZATION_ERROR"
        message := "A data serialization error occurred"
        details := if dbg then some msg else none }
  | .Migration msg =>
      { code := "MIGRATION_ERROR"
        message := "A database migration error occurred", details := some msg }
  | .Unknown msg =>
      { code := "UNKNOWN_ERROR", message := "An unknown error occurred"
        details := if dbg then some msg else none }

/-- error.rs lines 159-167: impl From of ErrorResponse for String; this is the
value a Tauri command actually rejects with. -/
def errorResponseToString (err : ErrorResponse) : String :=
  match err.details with
  | some details => err.message ++ ": " ++ details
  | none => err.message

/-- error.rs lines 170-172: the not_found shorthand. -/
def not_found (resource : String) : Error :=
  Error.NotFound (resource ++ " not found")

/-- error.rs lines 175-177: the validation_error shorthand. -/
def validation_error (message : String) : Error :=
  Error.Validation message

/-- Hex digit value, for the Uuid parsing model. -/
def hexDigitVal (c : Char) : Option Nat :=
  if c.isDigit then some (c.toNat - 48)
  else if 'a' ≤ c ∧ c ≤ 'f' then some (c.toNat - 87)
  else if 'A' ≤ c ∧ c ≤ 'F' then some (c.toNat - 55)
  else none

/-- Model of uuid::Uuid::parse_str restricted to the standard hyphenated form
(8-4-4-4-12 hex digits); the crate also accepts some alternative spellings,
none of which the claims exercise. The error string stands for the Display
rendering of uuid::Error in the crate. -/
def uuidParse (s : String) : Except String Uuid :=
  let cs := s.data
  if cs.length ≠ 36 then
    .error ("invalid length: expected 36 characters, found " ++
      toString cs.length)
  else
    let hyphensOk := [8, 13, 18, 23].all fun i => cs.getD i ' ' == '-'
    let digits := (List.range 36).filterMap fun i =>
      if i = 8 ∨ i = 13 ∨ i = 18 ∨ i = 23 then none
      else hexDigitVal (cs.getD i ' ')
    if hyphensOk && digits.length == 32 then
      .ok ⟨digits.foldl (fun a d => a * 16 + d) 0⟩
    else .error "invalid character"

/-- Model of the Display rendering of a Uuid (commands.rs renders ids with
to_string for the view model). -/
def Uuid.render (u : Uuid) : String := toString u.val

/-- Model of the Display renderings used by the view-model translation
(Decimal::to_string and DateTime::to_rfc3339). -/
def Decimal.render (d : Decimal) : String := toString d

/-- Model of DateTime::to_rfc3339 over the abstract instants. -/
def Timestamp.render (t : Timestamp) : String := toString t

/-- commands.rs lines 11-25: struct AccountViewModel. -/
structure AccountViewModel where
  id : String
  code : String
  name : String
  description : Option String
  account_type : String
  category : String
  subcategory : Option String
  is_active : Bool
  parent_id : Option String
  balance : String
  created_at : String
  updated_at : String
deriving DecidableEq, Repr

/-- commands.rs lines 27-36: struct NewAccountDto (the loosely-typed request). -/
structure NewAccountDto where
  code : String
  name : String
  description : Option String
  account_type : String
  category : String
  subcategory : Option String
  parent_id : Option String
deriving DecidableEq, Repr

/-- commands.rs lines 38-55: impl From of Account for AccountViewModel. -/
def AccountViewModel.ofAccount (account : Account) : AccountViewModel :=
  { id := account.id.render
    code := account.code
    name := account.name
    description := account.description
    account_type := account.account_type.display
    category := account.category.display
    subcategory := account.subcategory
    is_active := account.is_active
    parent_id := account.parent_id.map Uuid.render
    balance := account.balance.render
    created_at := account.created_at.render
    updated_at := account.updated_at.render }

/-- The persistent state of the accounts table: one AccountDto per row. -/
abbrev Store := List AccountDto

/-- Insertion step for the ORDER BY code (ascending) model. -/
def insertByCode (r : AccountDto) : List AccountDto → List AccountDto
  | [] => [r]
  | x :: xs => if r.code ≤ x.code then r :: x :: xs else x :: insertByCode r xs

/-- Model of the SQL ORDER BY code ascending used by the list queries. -/
def sortByCode (rs : List AccountDto) : List AccountDto :=
  rs.foldr insertByCode []

/-- repositories/accounts.rs lines 14-20: AccountRepository::find_all. -/
def Store.find_all (st : Store) : List Account :=
  (sortByCode st).map accountOfDto

/-- repositories/accounts.rs lines 22-29: AccountRepository::find_by_id. -/
def Store.find_by_id (st : Store) (id : Uuid) : Option Account :=
  (st.find? fun r => r.id == id).map accountOfDto

/-- repositories/accounts.rs lines 31-38: AccountRepository::find_by_code. -/
def Store.find_by_code (st : Store) (code : String) : Option Account :=
  (st.find? fun r => r.code == code).map accountOfDto

/-- repositories/accounts.rs lines 40-69: AccountRepository::create. Modelled
from the spec: the migrations directory defining the accounts table is not
under src, so per the persisted representation in the spec (one row per Account,
keyed by id) the INSERT is modelled to fail with a storage-layer unique
violation, surfaced as sqlx::Error::Database, exactly when a row with the same
id already exists; otherwise the row is appended. -/
def Store.create (st : Store) (new_account : NewAccount) (freshId : Uuid)
    (now : Timestamp) : Except SqlxError (Account × Store) :=
  let account := Account.new new_account freshId now
  let dto := dtoOfAccount account
  if st.any fun r => r.id == dto.id then
    .error (SqlxError.Database "duplicate key value violates unique constraint")
  else
    .ok (account, st ++ [dto])

/-- repositories/accounts.rs lines 71-106: AccountRepository::update. The SQL
sets every column except created_at on the rows matching the id of the entity; a
missing id matches no row and the statement is a no-op. -/
def Store.update (st : Store) (account : Account) : Store :=
  let dto := dtoOfAccount account
  st.map fun r =>
    if r.id == dto.id then
      { r with
        code := dto.code
        name := dto.name
        description := dto.description
        account_type := dto.account_type
        category := dto.category
        subcategory := dto.subcategory
        is_active := dto.is_active
        parent_id := dto.parent_id
        balance := dto.balance
        updated_at := dto.updated_at }
    else r

/-- repositories/accounts.rs lines 108-115: AccountRepository::delete. -/
def Store.delete (st : Store) (id : Uuid) : Store :=
  st.filter fun r => !(r.id == id)

/-- repositories/accounts.rs lines 117-126: AccountRepository::find_children. -/
def Store.find_children (st : Store) (parent_id : Uuid) : List Account :=
  (sortByCode (st.filter fun r => r.parent_id == some parent_id)).map
    accountOfDto

/-- repositories/accounts.rs lines 128-136: AccountRepository::find_roots. -/
def Store.find_roots (st : Store) : List Account :=
  (sortByCode (st.filter fun r => r.parent_id == none)).map accountOfDto

/-- repositories/accounts.rs lines 138-156: AccountRepository::update_balance.
The source is one SQL statement (SET balance = balance + amount,
updated_at = NOW() WHERE id = ...), so the whole read-add-write is a single
atomic transition of the store; NOW() is the now parameter. -/
def Store.update_balance (st : Store) (id : Uuid) (amount : Decimal)
    (now : Timestamp) : Store :=
  st.map fun r =>
    if r.id == id then { r with balance := r.balance + amount, updated_at := now }
    else r

/-- commands.rs lines 116-128 and 185-197: the parent-id parsing block shared
verbatim by create_account and update_account. The uuidP parameter stands for
Uuid::parse_str. -/
def parseParent (uuidP : String → Except String Uuid) :
    Option String → Except String (Option Uuid)
  | some parent_id_str =>
      if parent_id_str = "" then .ok none
      else
        match uuidP parent_id_str with
        | .ok id => .ok (some id)
        | .error e => .error ("Invalid parent UUID format: " ++ e)
  | none => .ok none

/-- commands.rs lines 72-91: the get_account command. Storage itself is
modelled as failure-free, so the repo-error arm of the source (wrapped as
Error::Database) does not arise here. -/
def get_account (uuidP : String → Except String Uuid) (st : Store)
    (id : String) : Except String (Option AccountViewModel) :=
  match uuidP id with
  | .error e => .error ("Invalid UUID format: " ++ e)
  | .ok account_id =>
      match Store.find_by_id st account_id with
      | some account => .ok (some (AccountViewModel.ofAccount account))
      | none => .ok none

/-- commands.rs lines 94-146: the create_account command; mutation commands
also return the successor store state. -/
def create_account (uuidP : String → Except String Uuid) (dbg : Bool)
    (st : Store) (new_account : NewAccountDto) (freshId : Uuid)
    (now : Timestamp) : Except String (AccountViewModel × Store) :=
  match AccountType.fromStr new_account.account_type with
  | none =>
      .error (errorResponseToString
        (ErrorResponse.ofError dbg (validation_error "Invalid account type")))
  | some account_type =>
  match AccountCategory.fromStr new_account.category with
  | none =>
      .error (errorResponseToString
        (ErrorResponse.ofError dbg
          (validation_error "Invalid account category")))
  | some category =>
  match parseParent uuidP new_account.parent_id with
  | .error e => .error e
  | .ok parent_id =>
      let domain_new_account : NewAccount :=
        { code := new_account.code
          name := new_account.name
          description := new_account.description
          account_type := account_type
          category := category
          subcategory := new_account.subcategory
          parent_id := parent_id }
      match Store.create st domain_new_account freshId now with
      | .ok (account, st') => .ok (AccountViewModel.ofAccount account, st')
      | .error err =>
          .error (errorResponseToString
            (ErrorResponse.ofError dbg (Error.Database err)))

/-- commands.rs lines 149-214: the update_account command. -/
def update_account (uuidP : String → Except String Uuid) (dbg : Bool)
    (st : Store) (id : String) (update_data : NewAccountDto)
    (now : Timestamp) : Except String (AccountViewModel × Store) :=
  match uuidP id with
  | .error e => .error ("Invalid UUID format: " ++ e)
  | .ok account_id =>
  match Store.find_by_id st account_id with
  | none =>
      .error (errorResponseToString
        (ErrorResponse.ofError dbg (not_found "Account")))
  | some account =>
  match AccountType.fromStr update_data.account_type with
  | none =>
      .error (errorResponseToString
        (ErrorResponse.ofError dbg (validation_error "Invalid account type")))
  | some account_type =>
  match AccountCategory.fromStr update_data.category with
  | none =>
      .error (errorResponseToString
        (ErrorResponse.ofError dbg
          (validation_error "Invalid account category")))
  | some category =>
  match parseParent uuidP update_data.parent_id with
  | .error e => .error e
  | .ok parent_id =>
      let account' : Account :=
        { account with
          code := update_data.code
          name := update_data.name
          description := update_data.description
          account_type := account_type
          category := category
          subcategory := update_data.subcategory
          parent_id := parent_id
          updated_at := now }
      .ok (AccountViewModel.ofAccount account', Store.update st account')

/-- commands.rs lines 217-235: the delete_account command. -/
def delete_account (uuidP : String → Except String Uuid) (st : Store)
    (id : String) : Except String (Unit × Store) :=
  match uuidP id with
  | .error e => .error ("Invalid UUID format: " ++ e)
  | .ok account_id => .ok ((), Store.delete st account_id)

/-- commands.rs lines 238-268: the toggle_account_status command. -/
def toggle_account_status (uuidP : String → Except String Uuid) (dbg : Bool)
    (st : Store) (id : String) (now : Timestamp) :
    Except String (AccountViewModel × Store) :=
  match uuidP id with
  | .error e => .error ("Invalid UUID format: " ++ e)
  | .ok account_id =>
  match Store.find_by_id st account_id with
  | none =>
      .error (errorResponseToString
        (ErrorResponse.ofError dbg (not_found "Account")))
  | some account =>
      let account' : Account :=
        { account with is_active := !account.is_active, updated_at := now }
      .ok (AccountViewModel.ofAccount account', Store.update st account')

/-- commands.rs lines 285-303: the get_child_accounts command. -/
def get_child_accounts (uuidP : String → Except String Uuid) (st : Store)
    (parent_id : String) : Except String (List AccountViewModel) :=
  match uuidP parent_id with
  | .error e => .error ("Invalid UUID format: " ++ e)
  | .ok account_id =>
      .ok ((Store.find_children st account_id).map AccountViewModel.ofAccount)

/-- Observation helper: list-level string-matching step for containsToken. -/
def startsWithL : List Char → List Char → Bool
  | [], _ => true
  | _ :: _, [] => false
  | p :: ps, c :: cs => p == c && startsWithL ps cs

/-- Observation helper: whether the token occurs verbatim inside s (used to
state that a surfaced error string does or does not carry a machine code). -/
def containsToken (s token : String) : Bool :=
  (List.range (s.data.length + 1)).any fun i =>
    startsWithL token.data (s.data.drop i)

/-- Observation helper: whether an Except value is a success. -/
def exceptIsOk {ε α : Type} : Except ε α → Bool
  | .ok _ => true
  | .error _ => false

/-- Observation helper: the balance stored for an id, if a row exists. -/
def Store.balanceOf (st : Store) (id : Uuid) : Option Decimal :=
  (st.find? fun r => r.id == id).map fun r => r.balance

/-- One storage-level increment request: target id, signed amount, and the
server-side NOW() instant of its execution. -/
structure IncOp where
  id : Uuid
  amount : Decimal
  now : Timestamp

/-- A serialized execution of storage-level increments: each update_balance
call is a single atomic SQL statement, so any concurrent execution is some
sequential order of these transitions. -/
def applyOps (st : Store) (ops : List IncOp) : Store :=
  ops.foldl (fun s op => Store.update_balance s op.id op.amount op.now) st

/-- The sum of the amounts an operation list adds to a given id. -/
def sumFor (id : Uuid) (ops : List IncOp) : Decimal :=
  ((ops.filter fun op => op.id == id).map fun op => op.amount).sum

/-- Concrete sample identity (the nil UUID). -/
def u0 : Uuid := ⟨0⟩

/-- Concrete sample identity distinct from u0. -/
def u1 : Uuid := ⟨1⟩

/-- The textual form of u0 accepted by the Uuid parsing model. -/
def nilUuidStr : String := "00000000-0000-0000-0000-000000000000"

/-- Concrete sample persisted row. -/
def row0 : AccountDto :=
  { id := u0
    code := "1000"
    name := "Cash"
    description := none
    account_type := "ASSET"
    category := "CURRENT_ASSET"
    subcategory := none
    is_active := true
    parent_id := none
    balance := 0
    created_at := 0
    updated_at := 0 }

/-- Concrete sample creation request (valid classification, no parent). -/
def dto0 : NewAccountDto :=
  { code := "1001"
    name := "Receivables"
    description := none
    account_type := "ASSET"
    category := "CURRENT_ASSET"
    subcategory := none
    parent_id := none }

/-- Concrete sample domain-level creation attributes. -/
def na0 : NewAccount :=
  { code := "1001"
    name := "Receivables"
    description := none
    account_type := .Asset
    category := .CurrentAsset
    subcategory := none
    parent_id := none }

/-- Concrete persisted row whose classification strings are not canonical
tokens (decidable of claim C10). -/
def badDto : AccountDto :=
  { id := u1
    code := "2000"
    name := "Loans"
    description := none
    account_type := "LIABILITY"
    category := "BOGUS"
    subcategory := none
    is_active := true
    parent_id := none
    balance := 0
    created_at := 0
    updated_at := 0 }


/-! Theorems. Each claim of the specification is settled below; helper lemmas
precede the claim theorems that use them. -/

theorem balanceOf_update_balance (st : Store) (idu idq : Uuid) (amt : Decimal)
    (now : Timestamp) :
    Store.balanceOf (Store.update_balance st idu amt now) idq =
      (Store.balanceOf st idq).map fun b => if idu = idq then b + amt else b := by
  induction st with
  | nil => rfl
  | cons r rs ih =>
    by_cases h1 : r.id = idu <;> by_cases h2 : r.id = idq <;>
      simp_all [Store.update_balance, Store.balanceOf, List.find?_cons,
        beq_iff_eq]
    simp [if_neg (Ne.symm h1)]

theorem no_lost_updates_general (ops : List IncOp) :
    ∀ (st : Store) (idq : Uuid),
      Store.balanceOf (applyOps st ops) idq =
        (Store.balanceOf st idq).map fun b => b + sumFor idq ops := by
  induction ops with
  | nil =>
    intro st idq
    cases hb : Store.balanceOf st idq <;> simp [applyOps, sumFor, hb]
  | cons op ops ih =>
    intro st idq
    have hstep : applyOps st (op :: ops) =
        applyOps (Store.update_balance st op.id op.amount op.now) ops := rfl
    rw [hstep, ih, balanceOf_update_balance]
    by_cases hid : op.id = idq <;>
      cases hb : Store.balanceOf st idq <;>
        simp [sumFor, List.filter_cons, hid, hb, add_assoc, beq_iff_eq]

theorem sumFor_replicate (idq : Uuid) (a : Decimal) (t : Timestamp) (n : ℕ) :
    sumFor idq (List.replicate n ⟨idq, a, t⟩) = n * a := by
  induction n with
  | zero => simp [sumFor]
  | succ n ih =>
    rw [List.replicate_succ]
    simp only [sumFor, List.filter_cons] at ih ⊢
    simp only [beq_self_eq_true, if_true, List.map_cons, List.sum_cons]
    rw [ih]
    push_cast
    ring

/-- C3: constructing an Account from a NewAccount yields balance exactly zero,
is_active true, created_at equal to updated_at (both the construction instant),
the freshly generated identity, and code, name, description, account_type,
category, subcategory and parent_id taken unchanged from the input. -/
theorem claim3_account_new_defaults (na : NewAccount) (u : Uuid)
    (now : Timestamp) :
    (Account.new na u now).balance = 0 ∧
    (Account.new na u now).is_active = true ∧
    (Account.new na u now).created_at = now ∧
    (Account.new na u now).updated_at = now ∧
    (Account.new na u now).created_at = (Account.new na u now).updated_at ∧
    (Account.new na u now).id = u ∧
    (Account.new na u now).code = na.code ∧
    (Account.new na u now).name = na.name ∧
    (Account.new na u now).description = na.description ∧
    (Account.new na u now).account_type = na.account_type ∧
    (Account.new na u now).category = na.category ∧
    (Account.new na u now).subcategory = na.subcategory ∧
    (Account.new na u now).parent_id = na.parent_id :=
  ⟨rfl, rfl, rfl, rfl, rfl, rfl, rfl, rfl, rfl, rfl, rfl, rfl, rfl⟩

/-- C4: parsing the canonical name of every AccountType and AccountCategory
variant yields that variant back; parsing is case-insensitive over the
canonical tokens (any string whose uppercasing is a canonical token parses to
its variant, in particular both "asset" and "ASSET" parse to Asset); and every
string whose uppercasing matches no canonical token parses to none. -/
theorem claim4_parse_roundtrip_case_insensitive :
    (∀ t : AccountType, AccountType.fromStr t.display = some t) ∧
    (∀ c : AccountCategory, AccountCategory.fromStr c.display = some c) ∧
    (∀ (s : String) (t : AccountType), rustToUppercase s = t.display →
        AccountType.fromStr s = some t) ∧
    (∀ s : String, (∀ t : AccountType, rustToUppercase s ≠ t.display) →
        AccountType.fromStr s = none) ∧
    (∀ (s : String) (c : AccountCategory), rustToUppercase s = c.display →
        AccountCategory.fromStr s = some c) ∧
    (∀ s : String, (∀ c : AccountCategory, rustToUppercase s ≠ c.display) →
        AccountCategory.fromStr s = none) ∧
    AccountType.fromStr "asset" = some .Asset ∧
    AccountType.fromStr "ASSET" = some .Asset ∧
    AccountType.fromStr "bogus" = none := by
  refine ⟨by decide, by decide, ?_, ?_, ?_, ?_, rfl, rfl, rfl⟩
  · intro s t h
    unfold AccountType.fromStr
    rw [h]
    cases t <;> rfl
  · intro s h
    unfold AccountType.fromStr
    split
    · exact absurd ‹rustToUppercase s = "ASSET"› (h .Asset)
    · exact absurd ‹rustToUppercase s = "LIABILITY"› (h .Liability)
    · exact absurd ‹rustToUppercase s = "EQUITY"› (h .Equity)
    · exact absurd ‹rustToUppercase s = "REVENUE"› (h .Revenue)
    · exact absurd ‹rustToUppercase s = "EXPENSE"› (h .Expense)
    · rfl
  · intro s c h
    unfold AccountCategory.fromStr
    rw [h]
    cases c <;> rfl
  · intro s h
    unfold AccountCategory.fromStr
    split
    · exact absurd ‹rustToUppercase s = "CURRENT_ASSET"› (h .CurrentAsset)
    · exact absurd ‹rustToUppercase s = "FIXED_ASSET"› (h .FixedAsset)
    · exact absurd ‹rustToUppercase s = "OTHER_ASSET"› (h .OtherAsset)
    · exact absurd ‹rustToUppercase s = "CURRENT_LIABILITY"›
        (h .CurrentLiability)
    · exact absurd ‹rustToUppercase s = "LONG_TERM_LIABILITY"›
        (h .LongTermLiability)
    · exact absurd ‹rustToUppercase s = "OTHER_LIABILITY"› (h .OtherLiability)
    · exact absurd ‹rustToUppercase s = "OWNER_EQUITY"› (h .OwnerEquity)
    · exact absurd ‹rustToUppercase s = "RETAINED_EARNINGS"›
        (h .RetainedEarnings)
    · exact absurd ‹rustToUppercase s = "OPERATING_REVENUE"›
        (h .OperatingRevenue)
    · exact absurd ‹rustToUppercase s = "NON_OPERATING_REVENUE"›
        (h .NonOperatingRevenue)
    · exact absurd ‹rustToUppercase s = "OPERATING_EXPENSE"›
        (h .OperatingExpense)
    · exact absurd ‹rustToUppercase s = "NON_OPERATING_EXPENSE"›
        (h .NonOperatingExpense)
    · rfl

/-- C4 witness: the case-insensitivity conjunct applied at the concrete input
"asset" and variant Asset. -/
theorem claim4_witness : AccountType.fromStr "asset" = some AccountType.Asset :=
  claim4_parse_roundtrip_case_insensitive.2.2.1 "asset" AccountType.Asset
    (by decide)

/-- C5: the twelve categories are partitioned totally and disjointly across the
five account types by for_account_type, and the Asset group is exactly
CurrentAsset, FixedAsset, OtherAsset. -/
theorem claim5_category_partition :
    (∀ (c : AccountCategory) (t₁ t₂ : AccountType),
        c ∈ AccountCategory.for_account_type t₁ →
        c ∈ AccountCategory.for_account_type t₂ → t₁ = t₂) ∧
    (∀ c : AccountCategory, ∃ t : AccountType,
        c ∈ AccountCategory.for_account_type t) ∧
    AccountCategory.for_account_type .Asset =
      [.CurrentAsset, .FixedAsset, .OtherAsset] :=
  ⟨by decide, by decide, rfl⟩

/-- C5 witness: the disjointness conjunct applied at the concrete category
CurrentAsset and the two concrete types Asset and Asset. -/
theorem claim5_witness :
    AccountCategory.CurrentAsset ∈ AccountCategory.for_account_type .Asset ∧
    AccountType.Asset = AccountType.Asset :=
  ⟨by decide,
   claim5_category_partition.1 .CurrentAsset .Asset .Asset (by decide)
     (by decide)⟩

/-- C6: update_balance adds exactly the signed amount to the balance with
exact decimal arithmetic, refreshes updated_at, changes no other field,
imposes no lower bound (negative balances are permitted), and in particular
adjusting zero by +100.50 then by -30.25 yields exactly 70.25. -/
theorem claim6_update_balance_exact (a : Account) (amount : Decimal)
    (now : Timestamp) :
    (a.update_balance amount now).balance = a.balance + amount ∧
    (a.update_balance amount now).updated_at = now ∧
    (a.update_balance amount now).id = a.id ∧
    (a.update_balance amount now).code = a.code ∧
    (a.update_balance amount now).name = a.name ∧
    (a.update_balance amount now).description = a.description ∧
    (a.update_balance amount now).account_type = a.account_type ∧
    (a.update_balance amount now).category = a.category ∧
    (a.update_balance amount now).subcategory = a.subcategory ∧
    (a.update_balance amount now).is_active = a.is_active ∧
    (a.update_balance amount now).parent_id = a.parent_id ∧
    (a.update_balance amount now).created_at = a.created_at ∧
    (((Account.new na0 u0 0).update_balance 100.5 1).update_balance
        (-30.25) 2).balance = 70.25 ∧
    ((Account.new na0 u0 0).update_balance (-30.25) 1).balance < 0 :=
  ⟨rfl, rfl, rfl, rfl, rfl, rfl, rfl, rfl, rfl, rfl, rfl, rfl,
   by norm_num [Account.update_balance, Account.new],
   by norm_num [Account.update_balance, Account.new]⟩

/-- C10: decoding a persisted row whose account_type string is not a canonical
token silently substitutes Asset, an unrecognized category string silently
becomes CurrentAsset, and (the conversion being total, signalling no error)
this can produce an Account whose type and category pair violates the
compatibility invariant, as the concrete row badDto shows. -/
theorem claim10_dto_decode_silent_fallback :
    (∀ dto : AccountDto, AccountType.fromStr dto.account_type = none →
        (accountOfDto dto).account_type = .Asset) ∧
    (∀ dto : AccountDto, AccountCategory.fromStr dto.category = none →
        (accountOfDto dto).category = .CurrentAsset) ∧
    ((accountOfDto badDto).account_type = .Liability ∧
     (accountOfDto badDto).category = .CurrentAsset ∧
     (accountOfDto badDto).category ∉
       AccountCategory.for_account_type (accountOfDto badDto).account_type) := by
  refine ⟨?_, ?_, rfl, rfl, by decide⟩
  · intro dto h
    simp [accountOfDto, h]
  · intro dto h
    simp [accountOfDto, h]

/-- C10 witness: the category-fallback conjunct applied at the concrete row
badDto, whose category string BOGUS parses to none. -/
theorem claim10_witness : (accountOfDto badDto).category = .CurrentAsset :=
  claim10_dto_decode_silent_fallback.2.1 badDto rfl



/-- C1 counterexample: on a store already holding identity u0, a create with
generated identity u0 fails, but the failure is surfaced from the
Error.Database wrapper whose ErrorResponse code is DATABASE_ERROR, not
CONFLICT_ERROR, and the string rejected to the caller never mentions
CONFLICT_ERROR. -/
theorem claim1_counterexample :
    create_account uuidParse true [row0] dto0 u0 1 =
      .error "Database error: error returned from database: duplicate key value violates unique constraint" ∧
    containsToken
      "Database error: error returned from database: duplicate key value violates unique constraint"
      "CONFLICT_ERROR" = false ∧
    (ErrorResponse.ofError true (Error.Database (SqlxError.Database
        "duplicate key value violates unique constraint"))).code =
      "DATABASE_ERROR" ∧
    ("DATABASE_ERROR" : String) ≠ "CONFLICT_ERROR" :=
  ⟨rfl, by decide, rfl, by decide⟩

/-- C1 amended: a store-level create whose identity already exists in the
store fails with a storage-layer error that the facade surfaces under the
DATABASE_ERROR code (not CONFLICT_ERROR, which no code path produces), and
with no collision the create succeeds, appending the new row. -/
theorem claim1_amended_create_collision_database_error (dbg : Bool)
    (st : Store) (na : NewAccount) (u : Uuid) (now : Timestamp) :
    ((st.any fun r => r.id == u) = true →
       Store.create st na u now =
         .error (SqlxError.Database
           "duplicate key value violates unique constraint") ∧
       (ErrorResponse.ofError dbg (Error.Database (SqlxError.Database
           "duplicate key value violates unique constraint"))).code =
         "DATABASE_ERROR") ∧
    ((st.any fun r => r.id == u) = false →
       Store.create st na u now =
         .ok (Account.new na u now,
              st ++ [dtoOfAccount (Account.new na u now)])) := by
  constructor
  · intro h
    refine ⟨?_, rfl⟩
    simp [Store.create, dtoOfAccount, Account.new, h]
  · intro h
    simp [Store.create, dtoOfAccount, Account.new, h]

/-- C1 witness: the collision arm applied at the concrete store holding row0
and the colliding identity u0. -/
theorem claim1_witness :
    (([row0] : Store).any fun r => r.id == u0) = true ∧
    Store.create [row0] na0 u0 1 =
      .error (SqlxError.Database
        "duplicate key value violates unique constraint") :=
  ⟨by decide,
   ((claim1_amended_create_collision_database_error true [row0] na0 u0 1).1
     (by decide)).1⟩

/-- C2 counterexample: two failing invocations whose rejected value carries
none of the five stable machine-readable codes: a not-found failure of
update_account (the ErrorResponse-to-String conversion drops the code field)
and a malformed-identifier failure of get_account (which bypasses the
ErrorResponse taxonomy entirely). -/
theorem claim2_counterexample :
    update_account uuidParse true [] nilUuidStr dto0 5 =
      .error "Resource not found: Account not found" ∧
    (["VALIDATION_ERROR", "NOT_FOUND", "CONFLICT_ERROR", "DATABASE_ERROR",
        "UNKNOWN_ERROR"].all fun c =>
      !containsToken "Resource not found: Account not found" c) = true ∧
    get_account uuidParse [] "zzz" =
      .error "Invalid UUID format: invalid length: expected 36 characters, found 3" ∧
    (["VALIDATION_ERROR", "NOT_FOUND", "CONFLICT_ERROR", "DATABASE_ERROR",
        "UNKNOWN_ERROR"].all fun c =>
      !containsToken
        "Invalid UUID format: invalid length: expected 36 characters, found 3"
        c) = true :=
  ⟨rfl, by decide, rfl, by decide⟩

/-- C2 amended: every failing invocation routed through the error taxonomy is
assigned one of the stable codes in its ErrorResponse together with a
human-readable summary, but the string actually rejected to the caller
depends only on the message and details fields (the code is dropped by the
conversion to String), and malformed-identifier failures of the six commands
bypass the taxonomy, rejecting with a bare formatted string. -/
theorem claim2_amended_codes_assigned_but_dropped :
    (∀ (dbg : Bool) (msg : String),
        (ErrorResponse.ofError dbg (validation_error msg)).code =
          "VALIDATION_ERROR") ∧
    (∀ (dbg : Bool) (resource : String),
        (ErrorResponse.ofError dbg (not_found resource)).code = "NOT_FOUND") ∧
    (∀ (dbg : Bool) (msg : String),
        (ErrorResponse.ofError dbg (Error.Conflict msg)).code =
          "CONFLICT_ERROR") ∧
    (∀ (dbg : Bool) (e : SqlxError),
        (ErrorResponse.ofError dbg (Error.Database e)).code =
          "DATABASE_ERROR") ∧
    (∀ (dbg : Bool) (msg : String),
        (ErrorResponse.ofError dbg (Error.Unknown msg)).code =
          "UNKNOWN_ERROR") ∧
    (∀ er er' : ErrorResponse, er.message = er'.message →
        er.details = er'.details →
        errorResponseToString er = errorResponseToString er') ∧
    (∀ (uuidP : String → Except String Uuid) (st : Store) (s e : String),
        uuidP s = .error e →
        get_account uuidP st s = .error ("Invalid UUID format: " ++ e)) ∧
    (∀ (uuidP : String → Except String Uuid) (dbg : Bool) (st : Store)
        (s : String) (dto : NewAccountDto) (now : Timestamp) (e : String),
        uuidP s = .error e →
        update_account uuidP dbg st s dto now =
          .error ("Invalid UUID format: " ++ e)) ∧
    (∀ (uuidP : String → Except String Uuid) (st : Store) (s e : String),
        uuidP s = .error e →
        delete_account uuidP st s = .error ("Invalid UUID format: " ++ e)) ∧
    (∀ (uuidP : String → Except String Uuid) (dbg : Bool) (st : Store)
        (s : String) (now : Timestamp) (e : String),
        uuidP s = .error e →
        toggle_account_status uuidP dbg st s now =
          .error ("Invalid UUID format: " ++ e)) ∧
    (∀ (uuidP : String → Except String Uuid) (st : Store) (s e : String),
        uuidP s = .error e →
        get_child_accounts uuidP st s =
          .error ("Invalid UUID format: " ++ e)) := by
  refine ⟨fun _ _ => rfl, fun _ _ => rfl, fun _ _ => rfl, fun _ _ => rfl,
    fun _ _ => rfl, ?_, ?_, ?_, ?_, ?_, ?_⟩
  · intro er er' hm hd
    simp [errorResponseToString, hm, hd]
  · intro uuidP st s e h
    simp [get_account, h]
  · intro uuidP dbg st s dto now e h
    simp [update_account, h]
  · intro uuidP st s e h
    simp [delete_account, h]
  · intro uuidP dbg st s now e h
    simp [toggle_account_status, h]
  · intro uuidP st s e h
    simp [get_child_accounts, h]

/-- C2 witness: the get_account malformed-identifier conjunct applied at the
concrete input "zzz". -/
theorem claim2_witness :
    get_account uuidParse ([] : Store) "zzz" =
      .error ("Invalid UUID format: " ++
        "invalid length: expected 36 characters, found 3") :=
  claim2_amended_codes_assigned_but_dropped.2.2.2.2.2.2.1 uuidParse [] "zzz"
    "invalid length: expected 36 characters, found 3" rfl

/-- C7: the Command Facade treats an empty-string parent reference as absent
(parsing yields no parent and no error, and both create_account and
update_account behave exactly as if the parent field were absent), while a
present non-empty parent string is parsed as an identifier, rejected with the
Invalid parent UUID format failure when malformed and accepted otherwise. -/
theorem claim7_empty_parent_absent :
    (∀ uuidP : String → Except String Uuid,
        parseParent uuidP (some "") = .ok none) ∧
    (∀ uuidP : String → Except String Uuid, parseParent uuidP none = .ok none) ∧
    (∀ (uuidP : String → Except String Uuid) (s e : String), s ≠ "" →
        uuidP s = .error e →
        parseParent uuidP (some s) =
          .error ("Invalid parent UUID format: " ++ e)) ∧
    (∀ (uuidP : String → Except String Uuid) (s : String) (u : Uuid), s ≠ "" →
        uuidP s = .ok u → parseParent uuidP (some s) = .ok (some u)) ∧
    (∀ (uuidP : String → Except String Uuid) (dbg : Bool) (st : Store)
        (dto : NewAccountDto) (freshId : Uuid) (now : Timestamp),
        dto.parent_id = some "" →
        create_account uuidP dbg st dto freshId now =
          create_account uuidP dbg st { dto with parent_id := none } freshId
            now) ∧
    (∀ (uuidP : String → Except String Uuid) (dbg : Bool) (st : Store)
        (s : String) (dto : NewAccountDto) (now : Timestamp),
        dto.parent_id = some "" →
        update_account uuidP dbg st s dto now =
          update_account uuidP dbg st s { dto with parent_id := none } now) := by
  refine ⟨fun _ => rfl, fun _ => rfl, ?_, ?_, ?_, ?_⟩
  · intro uuidP s e h0 h
    simp [parseParent, h0, h]
  · intro uuidP s u h0 h
    simp [parseParent, h0, h]
  · intro uuidP dbg st dto freshId now h
    cases ht : AccountType.fromStr dto.account_type <;>
      cases hc : AccountCategory.fromStr dto.category <;>
        simp [create_account, ht, hc, h, parseParent]
  · intro uuidP dbg st s dto now h
    unfold update_account
    cases hp : uuidP s with
    | error e => simp
    | ok id =>
      cases hf : Store.find_by_id st id with
      | none => simp [hf]
      | some a =>
        cases ht : AccountType.fromStr dto.account_type <;>
          cases hc : AccountCategory.fromStr dto.category <;>
            simp [hf, ht, hc, h, parseParent]

/-- C7 witness: the empty-parent equivalence for create_account applied at a
concrete request whose parent reference is the empty string, together with the
malformed-parent rejection applied at the concrete string "zzz". -/
theorem claim7_witness :
    create_account uuidParse true ([] : Store)
        { dto0 with parent_id := some "" } u1 3 =
      create_account uuidParse true ([] : Store)
        { { dto0 with parent_id := some "" } with parent_id := none } u1 3 ∧
    parseParent uuidParse (some "zzz") =
      .error ("Invalid parent UUID format: " ++
        "invalid length: expected 36 characters, found 3") :=
  ⟨claim7_empty_parent_absent.2.2.2.2.1 uuidParse true []
     { dto0 with parent_id := some "" } u1 3 rfl,
   claim7_empty_parent_absent.2.2.1 uuidParse "zzz"
     "invalid length: expected 36 characters, found 3" (by decide) rfl⟩

/-- C8: toggling the status of an existing account negates is_active and sets
updated_at to the toggle instant, writing back an entity in which every other
field (id, code, name, description, account_type, category, subcategory,
parent_id, balance, created_at) is unchanged. -/
theorem claim8_toggle_frame (uuidP : String → Except String Uuid) (dbg : Bool)
    (st : Store) (s : String) (id : Uuid) (a : Account) (now : Timestamp)
    (hp : uuidP s = .ok id) (hf : Store.find_by_id st id = some a) :
    toggle_account_status uuidP dbg st s now =
      .ok (AccountViewModel.ofAccount
             { a with is_active := !a.is_active, updated_at := now },
           Store.update st
             { a with is_active := !a.is_active, updated_at := now }) ∧
    ({ a with is_active := !a.is_active, updated_at := now } : Account).is_active
      = !a.is_active ∧
    ({ a with is_active := !a.is_active, updated_at := now } : Account).updated_at
      = now ∧
    ({ a with is_active := !a.is_active, updated_at := now } : Account).id
      = a.id ∧
    ({ a with is_active := !a.is_active, updated_at := now } : Account).code
      = a.code ∧
    ({ a with is_active := !a.is_active, updated_at := now } : Account).name
      = a.name ∧
    ({ a with is_active := !a.is_active, updated_at := now } : Account).description
      = a.description ∧
    ({ a with is_active := !a.is_active, updated_at := now } : Account).account_type
      = a.account_type ∧
    ({ a with is_active := !a.is_active, updated_at := now } : Account).category
      = a.category ∧
    ({ a with is_active := !a.is_active, updated_at := now } : Account).subcategory
      = a.subcategory ∧
    ({ a with is_active := !a.is_active, updated_at := now } : Account).parent_id
      = a.parent_id ∧
    ({ a with is_active := !a.is_active, updated_at := now } : Account).balance
      = a.balance ∧
    ({ a with is_active := !a.is_active, updated_at := now } : Account).created_at
      = a.created_at := by
  refine ⟨?_, rfl, rfl, rfl, rfl, rfl, rfl, rfl, rfl, rfl, rfl, rfl, rfl⟩
  simp [toggle_account_status, hp, hf]

/-- C8 witness: the toggle theorem applied at the concrete store holding row0,
addressed by the textual form of its identity. -/
theorem claim8_witness :
    toggle_account_status uuidParse true [row0] nilUuidStr 9 =
      .ok (AccountViewModel.ofAccount
             { accountOfDto row0 with
               is_active := !(accountOfDto row0).is_active, updated_at := 9 },
           Store.update [row0]
             { accountOfDto row0 with
               is_active := !(accountOfDto row0).is_active, updated_at := 9 }) :=
  (claim8_toggle_frame uuidParse true [row0] nilUuidStr u0 (accountOfDto row0)
    9 rfl rfl).1

/-- C9: each storage-level increment is a single atomic transition (the source
issues one SQL statement adding server-side), so for any serialized
interleaving of increment operations — possibly touching other accounts — the
final balance of an account is its initial balance plus the sum of the amounts
addressed to it; in particular N increments by amount a, in any order, yield
initial + N times a, and no increment is ever lost. -/
theorem claim9_no_lost_increments :
    (∀ (st : Store) (ops : List IncOp) (idq : Uuid),
        Store.balanceOf (applyOps st ops) idq =
          (Store.balanceOf st idq).map fun b => b + sumFor idq ops) ∧
    (∀ (st : Store) (idq : Uuid) (a : Decimal) (t : Timestamp) (n : ℕ),
        Store.balanceOf (applyOps st (List.replicate n ⟨idq, a, t⟩)) idq =
          (Store.balanceOf st idq).map fun b => b + n * a) := by
  refine ⟨fun st ops idq => no_lost_updates_general ops st idq, ?_⟩
  intro st idq a t n
  rw [no_lost_updates_general, sumFor_replicate]


end Erp
